import Mathlib

/-!
# Verification of the Chumby8TSCal touchscreen calibration tool

Shallow embedding of the calibration logic of `Chumby8TSCal`
(`src/calibrationwindow.cpp`, `src/calibrationutils.cpp`) and proofs about it.

Modelling conventions:
* C++ `int` values are embedded as `ℤ` (no arithmetic in the program comes
  near 32-bit overflow for the inputs considered).
* C++ `float` arithmetic is embedded as exact arithmetic on `ℚ`; the
  float-to-int conversions of the source (`static_cast`, implicit narrowing
  to the `int` members `_minXCal` etc., and Qt's `qRound`) are embedded
  explicitly as truncation toward zero / round-half-away-from-zero on `ℚ`.
* OS and X11 side effects (`read`, `open`, `ioctl`, Xlib calls, file writes)
  are embedded as explicit oracle parameters recording whether the call
  succeeds, and the calls the program makes are recorded in explicit
  effect records.
-/

namespace Chumby8TSCal

/-- A raw or pixel coordinate pair (`QPoint`). -/
abbrev Pt := ℤ × ℤ

/-- `RAW_TOUCHSCREEN_RANGE` from `calibrationutils.h`. -/
def RAW_TOUCHSCREEN_RANGE : ℤ := 4095

/-- `CROSSHAIR_OFFSET` from `calibrationwindow.cpp`. -/
def CROSSHAIR_OFFSET : ℤ := 20

/-- `NUM_CAL_POINTS` from `calibrationwindow.cpp`. -/
def NUM_CAL_POINTS : ℕ := 4

/-- `MAX_AVG_POINTS` from `calibrationwindow.cpp`. -/
def MAX_AVG_POINTS : ℕ := 5

/-! ### Executable rational arithmetic

The program's `float` arithmetic is embedded as exact arithmetic on `ℚ`.
Mathlib's `Rat.add`/`Rat.sub`/`Rat.mul`/`Rat.div` are irreducible, which
blocks kernel evaluation of concrete scenarios, so the embedding uses the
following `Rat.divInt`-based implementations; the `q*_eq` lemmas prove each
one equal to the corresponding standard field operation on `ℚ`. -/

/-- Addition on `ℚ`, kernel-evaluable. -/
def qadd (a b : ℚ) : ℚ :=
  Rat.divInt (a.num * (b.den : ℤ) + b.num * (a.den : ℤ)) ((a.den : ℤ) * (b.den : ℤ))

/-- Negation on `ℚ`, kernel-evaluable. -/
def qneg (b : ℚ) : ℚ := Rat.divInt (-b.num) (b.den : ℤ)

/-- Subtraction on `ℚ`, kernel-evaluable. -/
def qsub (a b : ℚ) : ℚ := qadd a (qneg b)

/-- Multiplication on `ℚ`, kernel-evaluable. -/
def qmul (a b : ℚ) : ℚ := Rat.divInt (a.num * b.num) ((a.den : ℤ) * (b.den : ℤ))

/-- Division on `ℚ`, kernel-evaluable. -/
def qdiv (a b : ℚ) : ℚ := Rat.divInt (a.num * (b.den : ℤ)) ((a.den : ℤ) * b.num)

theorem qadd_eq (a b : ℚ) : qadd a b = a + b := by
  have ha : ((a.den : ℚ)) ≠ 0 := by exact_mod_cast a.den_nz
  have hb : ((b.den : ℚ)) ≠ 0 := by exact_mod_cast b.den_nz
  rw [qadd, Rat.divInt_eq_div]
  push_cast
  conv_rhs => rw [← Rat.num_div_den a, ← Rat.num_div_den b]
  field_simp

theorem qneg_eq (b : ℚ) : qneg b = -b := by
  rw [qneg, Rat.divInt_eq_div]
  push_cast
  rw [neg_div, Rat.num_div_den]

theorem qsub_eq (a b : ℚ) : qsub a b = a - b := by
  rw [qsub, qadd_eq, qneg_eq, sub_eq_add_neg]

theorem qmul_eq (a b : ℚ) : qmul a b = a * b := by
  have ha : ((a.den : ℚ)) ≠ 0 := by exact_mod_cast a.den_nz
  have hb : ((b.den : ℚ)) ≠ 0 := by exact_mod_cast b.den_nz
  rw [qmul, Rat.divInt_eq_div]
  push_cast
  conv_rhs => rw [← Rat.num_div_den a, ← Rat.num_div_den b]
  field_simp

theorem qdiv_eq (a b : ℚ) : qdiv a b = a / b := by
  rcases eq_or_ne b 0 with hb | hb
  · subst hb
    rw [qdiv]
    simp
  · have ha : ((a.den : ℚ)) ≠ 0 := by exact_mod_cast a.den_nz
    have hd : ((b.den : ℚ)) ≠ 0 := by exact_mod_cast b.den_nz
    have hbn : (b.num : ℚ) ≠ 0 := by
      exact_mod_cast Rat.num_ne_zero.mpr hb
    rw [qdiv, Rat.divInt_eq_div]
    push_cast
    conv_rhs => rw [← Rat.num_div_den a, ← Rat.num_div_den b]
    field_simp

/-- C++ float-to-int conversion: truncation toward zero, on `ℚ`.
Since `ℚ` is stored normalized with positive denominator, `Int.tdiv`
(T-division) of numerator by denominator is exactly truncation toward 0. -/
def truncQ (q : ℚ) : ℤ := Int.tdiv q.num (q.den : ℤ)

/-- Qt's `qRound` on a float `d`: `d >= 0.0f ? int(d + 0.5f) : int(d - 0.5f)`. -/
def qRound (q : ℚ) : ℤ :=
  if 0 ≤ q then truncQ (qadd q (mkRat 1 2)) else truncQ (qsub q (mkRat 1 2))

/-! ## Raw event reader (`CalibrationWindow::readRawEvents`) -/

/-- `EV_SYN` from `<linux/input-event-codes.h>`. -/
def EV_SYN : ℕ := 0
/-- `EV_KEY` from `<linux/input-event-codes.h>`. -/
def EV_KEY : ℕ := 1
/-- `EV_ABS` from `<linux/input-event-codes.h>`. -/
def EV_ABS : ℕ := 3
/-- `BTN_TOUCH` (0x14a) from `<linux/input-event-codes.h>`. -/
def BTN_TOUCH : ℕ := 330
/-- `ABS_X` from `<linux/input-event-codes.h>`. -/
def ABS_X : ℕ := 0
/-- `ABS_Y` from `<linux/input-event-codes.h>`. -/
def ABS_Y : ℕ := 1
/-- `SYN_REPORT` from `<linux/input-event-codes.h>`. -/
def SYN_REPORT : ℕ := 0

/-- One fixed-size `input_event` record: `{type, code, value}`. -/
structure InputEvent where
  type : ℕ
  code : ℕ
  value : ℤ
deriving DecidableEq

/-- The transient decoder fields `_tmpPressed` and `_tmpXY` of
`CalibrationWindow`. -/
structure ReaderState where
  tmpPressed : Bool
  tmpXY : Pt
deriving DecidableEq

/-- The body of the `switch` in `CalibrationWindow::readRawEvents` for one
successfully read record: updates the transient fields, and on
`EV_SYN`/`SYN_REPORT` delivers the accumulated `(RawSample, pressed)` pair
(the `handleTouchUpdate(_tmpXY, _tmpPressed)` call). -/
def processInputEvent (s : ReaderState) (e : InputEvent) :
    ReaderState × Option (Pt × Bool) :=
  if e.type = EV_KEY then
    (if e.code = BTN_TOUCH then { s with tmpPressed := e.value != 0 } else s, none)
  else if e.type = EV_ABS then
    (if e.code = ABS_X then { s with tmpXY := (e.value, s.tmpXY.2) }
     else if e.code = ABS_Y then { s with tmpXY := (s.tmpXY.1, e.value) }
     else s, none)
  else if e.type = EV_SYN then
    (s, if e.code = SYN_REPORT then some (s.tmpXY, s.tmpPressed) else none)
  else
    (s, none)

/-- The read loop of `CalibrationWindow::readRawEvents`, over the list of
complete records obtained before the first short/failed read: returns the
final transient state and the list of delivered `(RawSample, pressed)`
pairs, in order. -/
def readRawEvents (s : ReaderState) : List InputEvent → ReaderState × List (Pt × Bool)
  | [] => (s, [])
  | e :: rest =>
    let r := processInputEvent s e
    let rr := readRawEvents r.1 rest
    (rr.1, r.2.toList ++ rr.2)

/-! ## Calibration state machine (`CalibrationWindow::handleTouchUpdate`) -/

/-- The status strings set on `_instructionsLabel`. -/
def initialLabel : String :=
  "To calibrate the touchscreen, tap each crosshair point that appears."

/-- Label set when the extrapolated bounds fail validation. -/
def errorLabel : String := "Calibration error. Tap the screen to quit."

/-- Label set when calibration completes with valid bounds. -/
def completeLabel : String := "Calibration complete. Tap the screen to apply and save."

/-- Label set when `saveNewCalibration` fails at the final commit. -/
def saveErrorLabel : String := "Error saving calibration. Tap the screen to quit."

/-- Label set when `applyCalibration` fails at the final commit. -/
def applyErrorLabel : String := "Error applying final calibration. Tap the screen to quit."

/-- Label set when the final commit fully succeeds. -/
def successLabel : String :=
  "New calibration saved and applied successfully. Tap the screen to finish."

/-- The mutable members of `CalibrationWindow` that the touch state machine
reads and writes (`_instructionsLabel` text, `_curCalPoint`,
`_touchIsPressed`, the `_points` queue with its head as the oldest entry,
`_calibrationPoints`, and the four `int` bound members). -/
structure CalState where
  instructionsLabel : String
  curCalPoint : ℕ
  touchIsPressed : Bool
  points : List Pt
  calibrationPoints : List Pt
  minXCal : ℤ
  maxXCal : ℤ
  minYCal : ℤ
  maxYCal : ℤ
deriving DecidableEq

/-- The external calls one `handleTouchUpdate` step makes: the matrix passed
to `CalibrationUtils::saveNewCalibration` (if called), the matrix passed to
`CalibrationUtils::applyCalibration` (if called), and whether `qApp->exit()`
was requested. -/
structure Effects where
  savedMatrix : Option (List ℚ)
  appliedMatrix : Option (List ℚ)
  exitRequested : Bool
deriving DecidableEq

/-- A step that calls nothing externally. -/
def noEffects : Effects :=
  { savedMatrix := none, appliedMatrix := none, exitRequested := false }

/-- `_points.enqueue(xy)` followed by the capacity check
`if (_points.count() > MAX_AVG_POINTS) _points.dequeue();`:
append the new sample at the back, and drop the front (oldest) entry if the
queue now exceeds `MAX_AVG_POINTS`. -/
def enqueueCapped (pts : List Pt) (xy : Pt) : List Pt :=
  let grown := pts ++ [xy]
  if MAX_AVG_POINTS < grown.length then grown.drop 1 else grown

/-- The dequeue-and-average loop at a release-edge: per-coordinate `int`
sums over the whole queue, cast to float, divided by the count, `qRound`ed. -/
def averagePoint (pts : List Pt) : Pt :=
  (qRound (qdiv (((pts.map Prod.fst).sum : ℤ) : ℚ) ((pts.length : ℤ) : ℚ)),
   qRound (qdiv (((pts.map Prod.snd).sum : ℤ) : ℚ) ((pts.length : ℤ) : ℚ)))

/-- The four crosshair pixel positions filled out in the
`CalibrationWindow` constructor from the screen size and
`CROSSHAIR_OFFSET`, in order top-left, top-right, bottom-right,
bottom-left. -/
def crosshairPoints (screenW screenH : ℤ) : List Pt :=
  [(CROSSHAIR_OFFSET, CROSSHAIR_OFFSET),
   (screenW - CROSSHAIR_OFFSET, CROSSHAIR_OFFSET),
   (screenW - CROSSHAIR_OFFSET, screenH - CROSSHAIR_OFFSET),
   (CROSSHAIR_OFFSET, screenH - CROSSHAIR_OFFSET)]

/-- The four extrapolated bounds, as stored into the `int` members
`_minXCal`, `_maxXCal`, `_minYCal`, `_maxYCal`. -/
structure Bounds where
  minX : ℤ
  maxX : ℤ
  minY : ℤ
  maxY : ℤ
deriving DecidableEq

/-- The extrapolation math after the fourth point: corner-average the raw
readings per edge (float division by `2.0f`), compute the per-axis scale
against the crosshair pixel positions, project outward by
`CROSSHAIR_OFFSET`, and narrow each float result to the `int` members
(truncation toward zero). -/
def computeBounds (crosshairs : List Pt) (cps : List Pt) : Bounds :=
  let p0 := cps.getD 0 (0, 0)
  let p1 := cps.getD 1 (0, 0)
  let p2 := cps.getD 2 (0, 0)
  let p3 := cps.getD 3 (0, 0)
  let leftXCal : ℚ := qdiv ((p0.1 + p3.1 : ℤ) : ℚ) 2
  let rightXCal : ℚ := qdiv ((p1.1 + p2.1 : ℤ) : ℚ) 2
  let topYCal : ℚ := qdiv ((p0.2 + p1.2 : ℤ) : ℚ) 2
  let botYCal : ℚ := qdiv ((p2.2 + p3.2 : ℤ) : ℚ) 2
  let q0 := crosshairs.getD 0 (0, 0)
  let q1 := crosshairs.getD 1 (0, 0)
  let q2 := crosshairs.getD 2 (0, 0)
  let leftXPixels : ℚ := (q0.1 : ℚ)
  let rightXPixels : ℚ := (q1.1 : ℚ)
  let topYPixels : ℚ := (q0.2 : ℚ)
  let botYPixels : ℚ := (q2.2 : ℚ)
  let scaleX : ℚ := qdiv (qsub rightXCal leftXCal) (qsub rightXPixels leftXPixels)
  let scaleY : ℚ := qdiv (qsub botYCal topYCal) (qsub botYPixels topYPixels)
  { minX := truncQ (qsub leftXCal (qmul scaleX (CROSSHAIR_OFFSET : ℚ))),
    maxX := truncQ (qadd rightXCal (qmul scaleX (CROSSHAIR_OFFSET : ℚ))),
    minY := truncQ (qsub topYCal (qmul scaleY (CROSSHAIR_OFFSET : ℚ))),
    maxY := truncQ (qadd botYCal (qmul scaleY (CROSSHAIR_OFFSET : ℚ))) }

/-- The range check on the stored `int` bounds:
`_minXCal < 0 || _maxXCal > RAW_TOUCHSCREEN_RANGE || _minYCal < 0 ||
 _maxYCal > RAW_TOUCHSCREEN_RANGE || _minXCal > _maxXCal || _minYCal > _maxYCal`. -/
def boundsInvalid (b : Bounds) : Bool :=
  b.minX < 0 || b.maxX > RAW_TOUCHSCREEN_RANGE ||
  b.minY < 0 || b.maxY > RAW_TOUCHSCREEN_RANGE ||
  b.minX > b.maxX || b.minY > b.maxY

/-- The 3×3 calibration matrix assembled at the final commit (row-major),
from the stored `int` bounds. -/
def calMatrix (minX maxX minY maxY : ℤ) : List ℚ :=
  let rangeF : ℚ := (RAW_TOUCHSCREEN_RANGE : ℚ)
  let a := qdiv rangeF (qsub (maxX : ℚ) (minX : ℚ))
  let c := qdiv (minX : ℚ) (qsub (minX : ℚ) (maxX : ℚ))
  let e := qdiv rangeF (qsub (maxY : ℚ) (minY : ℚ))
  let f := qdiv (minY : ℚ) (qsub (minY : ℚ) (maxY : ℚ))
  [a, 0, c, 0, e, f, 0, 0, 1]

/-- The press/release edge handling at the top of
`CalibrationWindow::handleTouchUpdate`: `_touchIsPressed` is flipped on a
press-edge or a release-edge and kept otherwise. -/
def edgeUpdate (s : CalState) (pressed : Bool) : CalState :=
  if pressed && !s.touchIsPressed then { s with touchIsPressed := true }
  else if !pressed && s.touchIsPressed then { s with touchIsPressed := false }
  else s

/-- The `_curCalPoint < NUM_CAL_POINTS` branch of `handleTouchUpdate`
(still calibrating): enqueue the sample (capped), and on a release-edge
average the queue into the calibration point for the current phase,
advance the phase, and after the fourth point run the extrapolation and
validation. -/
def collectStep (crosshairs : List Pt) (s : CalState) (xy : Pt)
    (released : Bool) : CalState × Effects :=
  let s2 := { s with points := enqueueCapped s.points xy }
  if released then
    let avg := averagePoint s2.points
    let cps := s2.calibrationPoints ++ [avg]
    let s3 := { s2 with points := [], calibrationPoints := cps,
                        curCalPoint := s2.curCalPoint + 1 }
    if s3.curCalPoint = NUM_CAL_POINTS then
      let b := computeBounds crosshairs cps
      let s4 := { s3 with minXCal := b.minX, maxXCal := b.maxX,
                          minYCal := b.minY, maxYCal := b.maxY }
      if boundsInvalid b then
        ({ s4 with instructionsLabel := errorLabel, calibrationPoints := [] },
         noEffects)
      else
        ({ s4 with instructionsLabel := completeLabel }, noEffects)
    else
      (s3, noEffects)
  else
    (s2, noEffects)

/-- The press-edge branch after calibration has finished: if four
calibration points are held, save and apply the assembled matrix
(`else if` chain: a save failure short-circuits past the apply call),
else request application exit. -/
def commitStep (saveOk applyOk : Bool) (s : CalState) : CalState × Effects :=
  if s.calibrationPoints.length = NUM_CAL_POINTS then
    let m := calMatrix s.minXCal s.maxXCal s.minYCal s.maxYCal
    if !saveOk then
      ({ s with instructionsLabel := saveErrorLabel, calibrationPoints := [] },
       { savedMatrix := some m, appliedMatrix := none, exitRequested := false })
    else if !applyOk then
      ({ s with instructionsLabel := applyErrorLabel, calibrationPoints := [] },
       { savedMatrix := some m, appliedMatrix := some m, exitRequested := false })
    else
      ({ s with instructionsLabel := successLabel, calibrationPoints := [] },
       { savedMatrix := some m, appliedMatrix := some m, exitRequested := false })
  else
    (s, { savedMatrix := none, appliedMatrix := none, exitRequested := true })

/-- `CalibrationWindow::handleTouchUpdate(xy, pressed)`.
`crosshairs` is the `_crosshairPoints` list fixed by the constructor;
`saveOk` and `applyOk` are the return values of
`CalibrationUtils::saveNewCalibration` / `CalibrationUtils::applyCalibration`
if those calls are made. Returns the updated member state together with the
record of external calls made during the step. -/
def handleTouchUpdate (crosshairs : List Pt) (saveOk applyOk : Bool)
    (s : CalState) (xy : Pt) (pressed : Bool) : CalState × Effects :=
  let touchJustPressed := pressed && !s.touchIsPressed
  let touchJustReleased := !pressed && s.touchIsPressed
  let s1 := edgeUpdate s pressed
  if s1.curCalPoint < NUM_CAL_POINTS then
    collectStep crosshairs s1 xy touchJustReleased
  else if touchJustPressed then
    commitStep saveOk applyOk s1
  else
    (s1, noEffects)

/-- The state of `CalibrationWindow` right after a successful constructor
run (touchscreen found): first crosshair shown, nothing collected. -/
def initState : CalState :=
  { instructionsLabel := initialLabel, curCalPoint := 0, touchIsPressed := false,
    points := [], calibrationPoints := [],
    minXCal := 0, maxXCal := 0, minYCal := 0, maxYCal := 0 }

/-- Feed a list of delivered `(RawSample, pressed)` pairs through
`handleTouchUpdate`, collecting per-step effects. -/
def runCal (crosshairs : List Pt) (saveOk applyOk : Bool) (s : CalState) :
    List (Pt × Bool) → CalState × List Effects
  | [] => (s, [])
  | u :: rest =>
    let r := handleTouchUpdate crosshairs saveOk applyOk s u.1 u.2
    let rr := runCal crosshairs saveOk applyOk r.1 rest
    (rr.1, r.2 :: rr.2)

/-! ## Device locator (`CalibrationUtils::findTouchScreen`) -/

/-- `CHUMBY_TOUCHSCREEN_NAME` from `calibrationutils.cpp`. -/
def CHUMBY_TOUCHSCREEN_NAME : String := "Chumby 8 touchscreen"

/-- One candidate entry of `/dev/input` as the program observes it:
the result of `::open` (`fd`; the code treats only `fd > 0` as a successful
open), whether the `EVIOCGNAME` ioctl succeeds, and the device's reported
name. -/
structure InputDevice where
  fd : ℤ
  ioctlOk : Bool
  devName : String
deriving DecidableEq

/-- The name the code ends up comparing: `EVIOCGNAME(sizeof(name))` fills a
32-byte buffer and the code forces `name[31] = 0`, so at most the first 31
characters of the device's name survive; on ioctl failure the code uses the
empty string (`name[0] = 0`). -/
def queriedName (d : InputDevice) : String :=
  if d.ioctlOk then d.devName.take 31 else ""

/-- The match test `!::strncmp(name, CHUMBY_TOUCHSCREEN_NAME, sizeof(name))`:
both C strings are null-terminated strictly inside the 32-byte window (the
target is 20 characters, the buffer is forced to terminate by index 31), so
the bounded comparison succeeds exactly when the truncated queried name
equals the target string. -/
def nameMatches (d : InputDevice) : Bool :=
  queriedName d == CHUMBY_TOUCHSCREEN_NAME

/-- `CalibrationUtils::findTouchScreen`, over the enumerated candidate list.
Returns the function's return value together with the list of file
descriptors still open when it returns (a matching descriptor is returned
still open; every other successfully opened descriptor is closed before the
scan continues, and on no match the function returns `-1` with nothing left
open). -/
def findTouchScreen : List InputDevice → ℤ × List ℤ
  | [] => (-1, [])
  | d :: rest =>
    if 0 < d.fd then
      if nameMatches d then (d.fd, [d.fd])
      else findTouchScreen rest
    else findTouchScreen rest

/-! ## Display-server backend (`CalibrationUtils::applyCalibration`) -/

/-- The X11 environment `applyCalibration` runs against, as oracles:
whether `XOpenDisplay` succeeds, whether `XListInputDevices` returns a
list, the names of the listed input devices, whether `XOpenDevice`
succeeds, whether each of the two `XInternAtom` lookups finds its atom, and
whether the temporarily installed error handler fires before the call
returns (the only failure signal for `XChangeDeviceProperty`). -/
structure XEnv where
  displayOk : Bool
  deviceListOk : Bool
  deviceNames : List String
  openDeviceOk : Bool
  matrixAtomOk : Bool
  floatAtomOk : Bool
  errorSignaled : Bool
deriving DecidableEq

/-- What one `applyCalibration` call did: its boolean return value, whether
it contacted the display server at all (`XOpenDisplay` attempted), and
whether the `XChangeDeviceProperty` property-replace request was issued. -/
structure XResult where
  success : Bool
  displayContacted : Bool
  requestIssued : Bool
deriving DecidableEq

/-- An `applyCalibration` run that contacted the display server but bailed
out before issuing the property-replace request (`retval` stayed `false`). -/
def xBailed : XResult :=
  { success := false, displayContacted := true, requestIssued := false }

/-- `CalibrationUtils::applyCalibration(matrix)`. The early length guard
runs before any X11 call; afterwards each X11 step is consulted in source
order, any failure jumping to the cleanup labels with `retval == false`;
once the property-replace request is issued, `retval` is `true` and the
final return value is `retval && !xErrorOccurred`. -/
def applyCalibration (env : XEnv) (matrix : List ℚ) : XResult :=
  if matrix.length ≠ 9 then
    { success := false, displayContacted := false, requestIssued := false }
  else if !env.displayOk then
    { success := false, displayContacted := true, requestIssued := false }
  else if !env.deviceListOk then xBailed
  else if !(env.deviceNames.contains CHUMBY_TOUCHSCREEN_NAME) then xBailed
  else if !env.openDeviceOk then xBailed
  else if !env.matrixAtomOk then xBailed
  else if !env.floatAtomOk then xBailed
  else
    { success := !env.errorSignaled, displayContacted := true, requestIssued := true }

/-! ## Concrete scenarios -/

/-- The crosshair points on the 1024×784 screen of the spec's end-to-end
scenario: `[(20,20), (1004,20), (1004,764), (20,764)]`. -/
def cross1024 : List Pt := crosshairPoints 1024 784

/-- One tap at raw point `p`: a pressed sample followed by a released
sample, both at `p`. -/
def tap (p : Pt) : List (Pt × Bool) := [(p, true), (p, false)]

/-- The spec's end-to-end scenario input: taps at raw points
`(100,100), (3990,100), (3990,3990), (100,3990)`. -/
def scenarioTaps : List (Pt × Bool) :=
  tap (100, 100) ++ tap (3990, 100) ++ tap (3990, 3990) ++ tap (100, 3990)

/-- The machine state after the spec's end-to-end scenario taps. -/
def scenarioFinal : CalState := (runCal cross1024 true true initState scenarioTaps).1

/-- A tap sequence whose extrapolated bounds pass validation on the same
screen: raw scale exactly 1 on both axes, bounds `(100, 1124, 100, 884)`. -/
def validTaps : List (Pt × Bool) :=
  tap (120, 120) ++ tap (1104, 120) ++ tap (1104, 864) ++ tap (120, 864)

/-- The machine state after `validTaps`: calibration complete, waiting for
the final commit tap. -/
def validFinal : CalState := (runCal cross1024 true true initState validTaps).1

/-! ## Theorems -/

/-- Whether a record is a sync commit marker (`EV_SYN`/`SYN_REPORT`). -/
def isSyncReport (e : InputEvent) : Bool :=
  (e.type == EV_SYN) && (e.code == SYN_REPORT)

/-- Helper: one record delivers a pair exactly when it is a sync record,
and then delivers the accumulated transient sample. -/
theorem processInputEvent_snd (s : ReaderState) (e : InputEvent) :
    (processInputEvent s e).2 =
      if isSyncReport e then some (s.tmpXY, s.tmpPressed) else none := by
  rcases e with ⟨t, c, v⟩
  by_cases hk : t = EV_KEY
  · subst hk
    simp +decide [processInputEvent, isSyncReport, EV_KEY, EV_SYN]
  · by_cases ha : t = EV_ABS
    · subst ha
      simp +decide [processInputEvent, isSyncReport, EV_ABS, EV_SYN]
    · by_cases hs : t = EV_SYN
      · subst hs
        by_cases hc : c = SYN_REPORT
        · subst hc
          simp +decide [processInputEvent, isSyncReport, EV_KEY, EV_ABS, EV_SYN, SYN_REPORT]
        · simp [processInputEvent, isSyncReport, EV_KEY, EV_ABS, EV_SYN, SYN_REPORT, hc]
      · simp [processInputEvent, isSyncReport, hk, ha, hs]

/-- Helper: the reader delivers exactly one pair per sync record. -/
theorem readRawEvents_length (s : ReaderState) (events : List InputEvent) :
    (readRawEvents s events).2.length = (events.filter isSyncReport).length := by
  induction events generalizing s with
  | nil => simp [readRawEvents]
  | cons e rest ih =>
    simp only [readRawEvents, List.length_append, ih, List.filter, processInputEvent_snd]
    by_cases hsync : isSyncReport e = true
    · simp [hsync]
      omega
    · simp [hsync]

/-- **C7**: button (`BTN_TOUCH`) and axis (`ABS_X`/`ABS_Y`) records only
update the transient pressed/X/Y fields and deliver nothing; a
`(RawSample, pressed)` pair is delivered exactly when an `EV_SYN` record
with code `SYN_REPORT` is decoded, and over a whole record sequence the
number of delivered pairs equals the number of sync records. -/
theorem C7_sync_gated_delivery (s : ReaderState) (e : InputEvent)
    (events : List InputEvent) :
    ((processInputEvent s e).2.isSome = true ↔ (e.type = EV_SYN ∧ e.code = SYN_REPORT)) ∧
    (e.type = EV_KEY →
      (processInputEvent s e).2 = none ∧
      (processInputEvent s e).1 =
        (if e.code = BTN_TOUCH then { s with tmpPressed := e.value != 0 } else s)) ∧
    (e.type = EV_ABS →
      (processInputEvent s e).2 = none ∧
      (processInputEvent s e).1.tmpPressed = s.tmpPressed) ∧
    (e.type = EV_SYN → e.code = SYN_REPORT →
      (processInputEvent s e).2 = some (s.tmpXY, s.tmpPressed) ∧
      (processInputEvent s e).1 = s) ∧
    (readRawEvents s events).2.length = (events.filter isSyncReport).length := by
  refine ⟨?_, ?_, ?_, ?_, readRawEvents_length s events⟩
  · rw [processInputEvent_snd]
    split
    · rename_i h
      simp only [isSyncReport, Bool.and_eq_true, beq_iff_eq] at h
      simp [h]
    · rename_i h
      simp only [isSyncReport, Bool.and_eq_true, beq_iff_eq] at h
      simpa using h
  · intro hk
    refine ⟨?_, ?_⟩
    · rw [processInputEvent_snd]
      simp +decide [isSyncReport, hk, EV_KEY, EV_SYN]
    · simp +decide [processInputEvent, hk, EV_KEY]
  · intro ha
    have hk : ¬ e.type = EV_KEY := by rw [ha]; decide
    refine ⟨?_, ?_⟩
    · rw [processInputEvent_snd]
      simp +decide [isSyncReport, ha, EV_ABS, EV_SYN]
    · simp +decide [processInputEvent, hk, ha]
      split
      · rfl
      · split <;> rfl
  · intro ht hc
    have hk : ¬ e.type = EV_KEY := by rw [ht]; decide
    have ha : ¬ e.type = EV_ABS := by rw [ht]; decide
    simp +decide [processInputEvent, hk, ha, ht, hc, EV_SYN, SYN_REPORT]

/-- Witness for C7 at concrete inputs: a `BTN_TOUCH` press record delivers
nothing, and the following `SYN_REPORT` record delivers the pair. -/
theorem C7_sync_gated_delivery_witness :
    (processInputEvent ⟨false, (7, 9)⟩ ⟨1, 330, 1⟩).2 = none ∧
    (processInputEvent ⟨true, (7, 9)⟩ ⟨0, 0, 0⟩).2 = some ((7, 9), true) ∧
    (readRawEvents ⟨false, (0, 0)⟩
      [⟨1, 330, 1⟩, ⟨3, 0, 7⟩, ⟨3, 1, 9⟩, ⟨0, 0, 0⟩]).2.length = 1 := by
  refine ⟨?_, ?_, ?_⟩
  · exact ((C7_sync_gated_delivery ⟨false, (7, 9)⟩ ⟨1, 330, 1⟩ []).2.1 rfl).1
  · exact ((C7_sync_gated_delivery ⟨true, (7, 9)⟩ ⟨0, 0, 0⟩ []).2.2.2.1 rfl rfl).1
  · rw [(C7_sync_gated_delivery ⟨false, (0, 0)⟩ ⟨0, 0, 0⟩
      [⟨1, 330, 1⟩, ⟨3, 0, 7⟩, ⟨3, 1, 9⟩, ⟨0, 0, 0⟩]).2.2.2.2]
    decide

/-- The predicate "this candidate opened successfully and its queried name
matches": what makes `findTouchScreen` stop and return. -/
def openAndMatches (d : InputDevice) : Bool :=
  decide (0 < d.fd) && nameMatches d

/-- Helper: a candidate that does not open-and-match is skipped, its handle
(if any) closed. -/
theorem findTouchScreen_skip (d0 : InputDevice) (rest : List InputDevice)
    (h0 : openAndMatches d0 = false) :
    findTouchScreen (d0 :: rest) = findTouchScreen rest := by
  by_cases hfd : 0 < d0.fd
  · by_cases hnm : nameMatches d0 = true
    · exfalso
      rw [openAndMatches, decide_eq_true hfd, hnm] at h0
      simp at h0
    · simp [findTouchScreen, hfd, hnm]
  · simp [findTouchScreen, hfd]

/-- **C8**: `findTouchScreen` returns the still-open handle of the first
enumerated device that opened successfully and whose queried name (at most
the 31 characters surviving in the 32-byte null-terminated buffer) matches
the touchscreen identifier, with no other handle left open; if no device
matches it returns `-1` with no handle left open. -/
theorem C8_locator (devs : List InputDevice) :
    (∀ d, devs.find? openAndMatches = some d → findTouchScreen devs = (d.fd, [d.fd])) ∧
    (devs.find? openAndMatches = none → findTouchScreen devs = (-1, [])) ∧
    (∀ d : InputDevice, d.ioctlOk = true →
      (nameMatches d = true ↔ d.devName.take 31 = CHUMBY_TOUCHSCREEN_NAME)) := by
  refine ⟨?_, ?_, ?_⟩
  · intro d hfind
    induction devs with
    | nil => simp at hfind
    | cons d0 rest ih =>
      rw [List.find?_cons] at hfind
      by_cases h0 : openAndMatches d0 = true
      · rw [h0] at hfind
        cases hfind
        simp only [openAndMatches, Bool.and_eq_true, decide_eq_true_eq] at h0
        simp [findTouchScreen, h0.1, h0.2]
      · rw [Bool.not_eq_true] at h0
        rw [h0] at hfind
        rw [findTouchScreen_skip d0 rest h0]
        exact ih hfind
  · intro hfind
    induction devs with
    | nil => simp [findTouchScreen]
    | cons d0 rest ih =>
      rw [List.find?_cons] at hfind
      by_cases h0 : openAndMatches d0 = true
      · rw [h0] at hfind
        cases hfind
      · rw [Bool.not_eq_true] at h0
        rw [h0] at hfind
        rw [findTouchScreen_skip d0 rest h0]
        exact ih hfind
  · intro d hio
    simp [nameMatches, queriedName, hio]

set_option maxRecDepth 4000 in
/-- Witness for C8: in a list where the touchscreen's node is preceded by a
node that fails to open and by an unrelated device, the third node's handle
is returned, still open; a 31-character-truncation mismatch device does not
match. -/
theorem C8_locator_witness :
    findTouchScreen
      [{ fd := -1, ioctlOk := true, devName := "Chumby 8 touchscreen" },
       { fd := 5, ioctlOk := true, devName := "gpio-keys" },
       { fd := 7, ioctlOk := true, devName := "Chumby 8 touchscreen" },
       { fd := 9, ioctlOk := true, devName := "Chumby 8 touchscreen" }] = (7, [7]) ∧
    findTouchScreen [{ fd := 5, ioctlOk := true, devName := "gpio-keys" }] = (-1, []) := by
  constructor
  · exact (C8_locator _).1 { fd := 7, ioctlOk := true, devName := "Chumby 8 touchscreen" }
      (by decide)
  · exact (C8_locator _).2.1 (by decide)

/-- **C9**: `applyCalibration` returns `false` for every matrix without
exactly 9 entries, without contacting the display server; otherwise it
returns `true` exactly when the property-replace request was issued and no
error was signaled through the temporarily installed error handler before
the call returned. -/
theorem C9_apply_contract (env : XEnv) (matrix : List ℚ) :
    (matrix.length ≠ 9 →
      applyCalibration env matrix =
        { success := false, displayContacted := false, requestIssued := false }) ∧
    (matrix.length = 9 →
      ((applyCalibration env matrix).success = true ↔
        (applyCalibration env matrix).requestIssued = true ∧ env.errorSignaled = false)) := by
  constructor
  · intro hlen
    rw [applyCalibration, if_pos hlen]
  · intro hlen
    rw [applyCalibration, if_neg (by simp [hlen])]
    rcases env with ⟨d, l, ns, o, m, f, err⟩
    cases d <;> cases l <;> cases o <;> cases m <;> cases f <;> cases err <;>
      simp [xBailed] <;>
      by_cases hc : CHUMBY_TOUCHSCREEN_NAME ∈ ns <;> simp [hc]

/-- Witness for C9: with every X11 step succeeding and no error signaled, a
9-entry matrix is applied successfully; an 8-entry matrix fails without
contacting the display server. -/
theorem C9_apply_contract_witness :
    (applyCalibration
      { displayOk := true, deviceListOk := true,
        deviceNames := ["Power Button", "Chumby 8 touchscreen"],
        openDeviceOk := true, matrixAtomOk := true, floatAtomOk := true,
        errorSignaled := false }
      (List.replicate 9 (0 : ℚ))).success = true ∧
    (applyCalibration
      { displayOk := true, deviceListOk := true,
        deviceNames := ["Power Button", "Chumby 8 touchscreen"],
        openDeviceOk := true, matrixAtomOk := true, floatAtomOk := true,
        errorSignaled := false }
      (List.replicate 8 (0 : ℚ))).displayContacted = false := by
  constructor
  · exact ((C9_apply_contract _ _).2 (by decide)).mpr ⟨by decide, rfl⟩
  · rw [(C9_apply_contract _ _).1 (by decide)]

/-- **C2 counterexample**: for the spec's end-to-end scenario (taps at raw
points `(100,100), (3990,100), (3990,3990), (100,3990)` against the
crosshairs of a 1024×784 screen), the extrapolated Y minimum is negative
(about `-4.57`, stored as `-4`), the X minimum is nowhere near the claimed
`≈80` (it is `20`), and validation rejects the result (error label, points
discarded) rather than accepting it. -/
theorem C2_counterexample :
    scenarioFinal.minYCal < 0 ∧
    scenarioFinal.minXCal = 20 ∧
    scenarioFinal.instructionsLabel = errorLabel ∧
    scenarioFinal.instructionsLabel ≠ completeLabel := by decide

/-- **C2 (amended)**: for the scenario's four averaged raw points the
extrapolation formula yields float bounds `≈(20.93, 4069.07, -4.57,
4094.57)`, stored truncated as `(20, 4069, -4, 4094)`; because the Y
minimum is negative the bounds are rejected as invalid: the state machine
shows the calibration-error message and discards the collected points. -/
theorem C2_extrapolated_bounds :
    computeBounds cross1024 [(100, 100), (3990, 100), (3990, 3990), (100, 3990)] =
      { minX := 20, maxX := 4069, minY := -4, maxY := 4094 } ∧
    boundsInvalid
      { minX := 20, maxX := 4069, minY := -4, maxY := 4094 } = true ∧
    scenarioFinal.minXCal = 20 ∧ scenarioFinal.maxXCal = 4069 ∧
    scenarioFinal.minYCal = -4 ∧ scenarioFinal.maxYCal = 4094 ∧
    scenarioFinal.instructionsLabel = errorLabel ∧
    scenarioFinal.calibrationPoints = [] := by decide

/-- **C10**: the sample delivered with the release-edge is enqueued into
the window before the averaging runs, so while in a `Point*` state the
window averaged at a release-edge — `enqueueCapped _points xy` — always
holds at least one sample; in particular the division in the averaging
step never divides by zero. -/
theorem C10_average_count_positive (s : CalState) (xy : Pt)
    (_hphase : s.curCalPoint < NUM_CAL_POINTS) :
    0 < (enqueueCapped s.points xy).length ∧
    (((enqueueCapped s.points xy).length : ℤ) : ℚ) ≠ 0 := by
  have hpos : 0 < (enqueueCapped s.points xy).length := by
    rw [enqueueCapped]
    split
    · rename_i h
      simp only [MAX_AVG_POINTS, List.length_drop, List.length_append,
        List.length_cons, List.length_nil] at h ⊢
      omega
    · simp
  refine ⟨hpos, ?_⟩
  have : ((enqueueCapped s.points xy).length : ℤ) ≠ 0 := by omega
  exact_mod_cast this

/-- Witness for C10 at the initial state: the averaged window holds
exactly the delivered sample. -/
theorem C10_average_count_positive_witness :
    NUM_CAL_POINTS = 4 ∧ 0 < (enqueueCapped initState.points (100, 100)).length :=
  ⟨rfl, (C10_average_count_positive initState (100, 100) (by decide)).1⟩

/-- Helper: the capped enqueue never grows the window beyond
`MAX_AVG_POINTS` when it was within capacity before. -/
theorem enqueueCapped_le (pts : List Pt) (xy : Pt)
    (h : pts.length ≤ MAX_AVG_POINTS) :
    (enqueueCapped pts xy).length ≤ MAX_AVG_POINTS := by
  rw [enqueueCapped]
  split
  · rename_i hgt
    simp only [List.length_drop, List.length_append, List.length_cons,
      List.length_nil] at hgt ⊢
    omega
  · rename_i hle
    simp only [not_lt, List.length_append, List.length_cons, List.length_nil] at hle ⊢
    omega

/-- Helper: the edge update only recomputes `_touchIsPressed`, which always
ends up equal to the delivered `pressed` flag. -/
theorem edgeUpdate_eq (s : CalState) (pressed : Bool) :
    edgeUpdate s pressed = { s with touchIsPressed := pressed } := by
  rcases s with ⟨l, cp, tp, pts, cps, a1, a2, a3, a4⟩
  cases pressed <;> cases tp <;> rfl

/-- Helper: the collecting branch leaves an empty window after a
release-edge and the capped-enqueued window otherwise. -/
theorem collectStep_points (crosshairs : List Pt) (s : CalState) (xy : Pt)
    (released : Bool) :
    (collectStep crosshairs s xy released).1.points =
      if released then [] else enqueueCapped s.points xy := by
  cases released
  · rfl
  · dsimp only [collectStep]
    rw [if_pos rfl, if_pos rfl]
    split
    · split <;> rfl
    · rfl

/-- Helper: the final-commit branch never touches the sample window. -/
theorem commitStep_points (saveOk applyOk : Bool) (s : CalState) :
    (commitStep saveOk applyOk s).1.points = s.points := by
  dsimp only [commitStep]
  split
  · split
    · rfl
    · split <;> rfl
  · rfl

/-- Helper: one `handleTouchUpdate` step keeps the window within capacity. -/
theorem handleTouchUpdate_points_le (crosshairs : List Pt) (saveOk applyOk : Bool)
    (s : CalState) (xy : Pt) (pressed : Bool)
    (hcap : s.points.length ≤ MAX_AVG_POINTS) :
    (handleTouchUpdate crosshairs saveOk applyOk s xy pressed).1.points.length ≤
      MAX_AVG_POINTS := by
  have hep : (edgeUpdate s pressed).points = s.points := by rw [edgeUpdate_eq]
  dsimp only [handleTouchUpdate]
  split
  · rw [collectStep_points]
    split
    · simp
    · rw [hep]
      exact enqueueCapped_le _ _ hcap
  · split
    · rw [commitStep_points, hep]
      exact hcap
    · show (edgeUpdate s pressed).points.length ≤ MAX_AVG_POINTS
      rw [hep]
      exact hcap

/-- Helper: from the initial state, the window stays within capacity over
any input trace. -/
theorem runCal_points_le (crosshairs : List Pt) (saveOk applyOk : Bool)
    (inputs : List (Pt × Bool)) :
    ∀ s : CalState, s.points.length ≤ MAX_AVG_POINTS →
      (runCal crosshairs saveOk applyOk s inputs).1.points.length ≤ MAX_AVG_POINTS := by
  induction inputs with
  | nil => intro s h; simpa [runCal] using h
  | cons u rest ih =>
    intro s h
    simp only [runCal]
    exact ih _ (handleTouchUpdate_points_le crosshairs saveOk applyOk s u.1 u.2 h)

/-- **C5**: after one step from any within-capacity state the sample window
holds at most `MAX_AVG_POINTS = 5` entries (and so does every state
reachable from the initial state); when a sample arrives with the window
full, the oldest entry is evicted and the rest slide (the window is not
cleared), while below capacity the sample is simply appended. -/
theorem C5_window_capacity (crosshairs : List Pt) (saveOk applyOk : Bool)
    (s : CalState) (xy : Pt) (pressed : Bool)
    (hcap : s.points.length ≤ MAX_AVG_POINTS) :
    (handleTouchUpdate crosshairs saveOk applyOk s xy pressed).1.points.length ≤
      MAX_AVG_POINTS ∧
    (s.points.length = MAX_AVG_POINTS →
      enqueueCapped s.points xy = s.points.drop 1 ++ [xy]) ∧
    (s.points.length < MAX_AVG_POINTS →
      enqueueCapped s.points xy = s.points ++ [xy]) ∧
    ∀ inputs : List (Pt × Bool),
      (runCal crosshairs saveOk applyOk initState inputs).1.points.length ≤
        MAX_AVG_POINTS := by
  refine ⟨handleTouchUpdate_points_le crosshairs saveOk applyOk s xy pressed hcap,
    ?_, ?_, fun inputs => runCal_points_le crosshairs saveOk applyOk inputs initState
      (by simp [initState])⟩
  · intro hfull
    rw [enqueueCapped, if_pos (by
      simp only [List.length_append, List.length_cons, List.length_nil, hfull]
      omega)]
    exact List.drop_append_of_le_length (by rw [hfull]; simp [MAX_AVG_POINTS])
  · intro hlt
    rw [enqueueCapped, if_neg (by
      simp only [not_lt, List.length_append, List.length_cons, List.length_nil]
      omega)]

/-- Witness for C5 at a concrete full window: the sixth sample evicts the
oldest entry and the window slides, staying at five entries. -/
theorem C5_window_capacity_witness :
    enqueueCapped [((1 : ℤ), (1 : ℤ)), (2, 2), (3, 3), (4, 4), (5, 5)] (6, 6) =
      [(2, 2), (3, 3), (4, 4), (5, 5), (6, 6)] ∧
    (handleTouchUpdate cross1024 true true
      { initState with points := [(1, 1), (2, 2), (3, 3), (4, 4), (5, 5)] }
      (6, 6) true).1.points.length ≤ MAX_AVG_POINTS := by
  constructor
  · exact ((C5_window_capacity cross1024 true true
      { initState with points := [(1, 1), (2, 2), (3, 3), (4, 4), (5, 5)] }
      (6, 6) true (by decide)).2.1 (by decide)).trans (by decide)
  · exact (C5_window_capacity cross1024 true true
      { initState with points := [(1, 1), (2, 2), (3, 3), (4, 4), (5, 5)] }
      (6, 6) true (by decide)).1

/-- Helper: full characterization of the collecting branch on a
release-edge — the averaged point is recorded for the current phase, the
phase advances, the window is emptied; after the fourth point the
extrapolated bounds are stored and validation either keeps the points
(valid) or shows the error text and discards them (invalid). -/
theorem collectStep_release (crosshairs : List Pt) (s : CalState) (xy : Pt) :
    (collectStep crosshairs s xy true).2 = noEffects ∧
    (collectStep crosshairs s xy true).1.curCalPoint = s.curCalPoint + 1 ∧
    (collectStep crosshairs s xy true).1.points = [] ∧
    (s.curCalPoint + 1 ≠ NUM_CAL_POINTS →
      (collectStep crosshairs s xy true).1.calibrationPoints =
        s.calibrationPoints ++ [averagePoint (enqueueCapped s.points xy)] ∧
      (collectStep crosshairs s xy true).1.instructionsLabel =
        s.instructionsLabel) ∧
    (s.curCalPoint + 1 = NUM_CAL_POINTS →
      (collectStep crosshairs s xy true).1.minXCal =
        (computeBounds crosshairs
          (s.calibrationPoints ++ [averagePoint (enqueueCapped s.points xy)])).minX ∧
      (collectStep crosshairs s xy true).1.maxXCal =
        (computeBounds crosshairs
          (s.calibrationPoints ++ [averagePoint (enqueueCapped s.points xy)])).maxX ∧
      (collectStep crosshairs s xy true).1.minYCal =
        (computeBounds crosshairs
          (s.calibrationPoints ++ [averagePoint (enqueueCapped s.points xy)])).minY ∧
      (collectStep crosshairs s xy true).1.maxYCal =
        (computeBounds crosshairs
          (s.calibrationPoints ++ [averagePoint (enqueueCapped s.points xy)])).maxY ∧
      (boundsInvalid (computeBounds crosshairs
          (s.calibrationPoints ++ [averagePoint (enqueueCapped s.points xy)])) = false →
        (collectStep crosshairs s xy true).1.calibrationPoints =
          s.calibrationPoints ++ [averagePoint (enqueueCapped s.points xy)] ∧
        (collectStep crosshairs s xy true).1.instructionsLabel = completeLabel) ∧
      (boundsInvalid (computeBounds crosshairs
          (s.calibrationPoints ++ [averagePoint (enqueueCapped s.points xy)])) = true →
        (collectStep crosshairs s xy true).1.calibrationPoints = [] ∧
        (collectStep crosshairs s xy true).1.instructionsLabel = errorLabel)) := by
  dsimp only [collectStep]
  rw [if_pos rfl]
  generalize computeBounds crosshairs
    (s.calibrationPoints ++ [averagePoint (enqueueCapped s.points xy)]) = b
  by_cases hN : s.curCalPoint + 1 = NUM_CAL_POINTS
  · rw [if_pos hN]
    by_cases hInv : boundsInvalid b = true
    · rw [if_pos hInv]
      exact ⟨rfl, rfl, rfl, fun h => absurd hN h,
        fun _ => ⟨rfl, rfl, rfl, rfl,
          fun hf => absurd hInv (by rw [hf]; decide),
          fun _ => ⟨rfl, rfl⟩⟩⟩
    · rw [if_neg hInv]
      exact ⟨rfl, rfl, rfl, fun h => absurd hN h,
        fun _ => ⟨rfl, rfl, rfl, rfl,
          fun _ => ⟨rfl, rfl⟩,
          fun ht => absurd ht hInv⟩⟩
  · rw [if_neg hN]
    exact ⟨rfl, rfl, rfl, fun _ => ⟨rfl, rfl⟩, fun h => absurd h hN⟩

/-- **C4**: while in a `Point*` state every delivered sample is appended to
the (capped) window; on a release-edge the recorded calibration point for
the current phase is the per-coordinate sum of every sample then in the
window divided by the count and rounded, the phase advances, and the window
is left empty (after the fourth point, validation either keeps the recorded
points or — on invalid bounds — discards them with the error text, per the
`Error` transition). -/
theorem C4_append_and_average (crosshairs : List Pt) (saveOk applyOk : Bool)
    (s : CalState) (xy : Pt) (pressed : Bool)
    (hphase : s.curCalPoint < NUM_CAL_POINTS) :
    averagePoint (enqueueCapped s.points xy) =
      (qRound (((((enqueueCapped s.points xy).map Prod.fst).sum : ℤ) : ℚ) /
        (((enqueueCapped s.points xy).length : ℤ) : ℚ)),
       qRound (((((enqueueCapped s.points xy).map Prod.snd).sum : ℤ) : ℚ) /
        (((enqueueCapped s.points xy).length : ℤ) : ℚ))) ∧
    (¬ (pressed = false ∧ s.touchIsPressed = true) →
      (handleTouchUpdate crosshairs saveOk applyOk s xy pressed).1.points =
        enqueueCapped s.points xy ∧
      (handleTouchUpdate crosshairs saveOk applyOk s xy pressed).1.calibrationPoints =
        s.calibrationPoints ∧
      (handleTouchUpdate crosshairs saveOk applyOk s xy pressed).1.curCalPoint =
        s.curCalPoint) ∧
    (pressed = false → s.touchIsPressed = true →
      (handleTouchUpdate crosshairs saveOk applyOk s xy pressed).1.curCalPoint =
        s.curCalPoint + 1 ∧
      (handleTouchUpdate crosshairs saveOk applyOk s xy pressed).1.points = [] ∧
      (s.curCalPoint + 1 ≠ NUM_CAL_POINTS →
        (handleTouchUpdate crosshairs saveOk applyOk s xy pressed).1.calibrationPoints =
          s.calibrationPoints ++ [averagePoint (enqueueCapped s.points xy)]) ∧
      (s.curCalPoint + 1 = NUM_CAL_POINTS →
        (boundsInvalid (computeBounds crosshairs
            (s.calibrationPoints ++ [averagePoint (enqueueCapped s.points xy)])) = false →
          (handleTouchUpdate crosshairs saveOk applyOk s xy pressed).1.calibrationPoints =
            s.calibrationPoints ++ [averagePoint (enqueueCapped s.points xy)]) ∧
        (boundsInvalid (computeBounds crosshairs
            (s.calibrationPoints ++ [averagePoint (enqueueCapped s.points xy)])) = true →
          (handleTouchUpdate crosshairs saveOk applyOk s xy pressed).1.calibrationPoints = [] ∧
          (handleTouchUpdate crosshairs saveOk applyOk s xy pressed).1.instructionsLabel =
            errorLabel))) := by
  refine ⟨by simp only [averagePoint, qdiv_eq], ?_, ?_⟩
  · intro hnr
    have hrel : (!pressed && s.touchIsPressed) = false := by
      cases pressed
      · rcases hb : s.touchIsPressed
        · simp [hb]
        · exact absurd ⟨rfl, hb⟩ hnr
      · simp
    dsimp only [handleTouchUpdate]
    rw [edgeUpdate_eq, hrel]
    dsimp only
    rw [if_pos hphase]
    exact ⟨rfl, rfl, rfl⟩
  · intro hp hb
    subst hp
    dsimp only [handleTouchUpdate, Bool.not_false, Bool.true_and]
    rw [edgeUpdate_eq, hb]
    dsimp only
    rw [if_pos hphase]
    have h := collectStep_release crosshairs { s with touchIsPressed := false } xy
    dsimp only at h
    exact ⟨h.2.1, h.2.2.1,
      fun hne => (h.2.2.2.1 hne).1,
      fun he => ⟨fun hf => ((h.2.2.2.2 he).2.2.2.2.1 hf).1,
        fun ht => (h.2.2.2.2 he).2.2.2.2.2 ht⟩⟩

/-- Witness for C4: after a press at raw point `(100,100)` from the initial
state, the release records exactly `(100,100)` as the first calibration
point, advances to the second phase and empties the window. -/
theorem C4_append_and_average_witness :
    (handleTouchUpdate cross1024 true true
      (runCal cross1024 true true initState [((100, 100), true)]).1
      (100, 100) false).1.calibrationPoints = [(100, 100)] ∧
    (handleTouchUpdate cross1024 true true
      (runCal cross1024 true true initState [((100, 100), true)]).1
      (100, 100) false).1.curCalPoint = 1 ∧
    (handleTouchUpdate cross1024 true true
      (runCal cross1024 true true initState [((100, 100), true)]).1
      (100, 100) false).1.points = [] := by
  have h := C4_append_and_average cross1024 true true
    (runCal cross1024 true true initState [((100, 100), true)]).1
    (100, 100) false (by decide)
  have hr := h.2.2 rfl (by decide)
  exact ⟨((hr.2.2.1 (by decide))).trans (by decide),
    hr.1.trans (by decide), hr.2.1⟩

/-- Helper: once calibration is over (`_curCalPoint` at its cap) and no
four-point set is held, a step makes no save/apply call and stays in that
region. -/
theorem post_region_step (crosshairs : List Pt) (saveOk applyOk : Bool)
    (s : CalState) (xy : Pt) (pressed : Bool)
    (hphase : ¬ s.curCalPoint < NUM_CAL_POINTS)
    (hlen : ¬ s.calibrationPoints.length = NUM_CAL_POINTS) :
    (handleTouchUpdate crosshairs saveOk applyOk s xy pressed).2.savedMatrix = none ∧
    (handleTouchUpdate crosshairs saveOk applyOk s xy pressed).2.appliedMatrix = none ∧
    ¬ (handleTouchUpdate crosshairs saveOk applyOk s xy pressed).1.curCalPoint <
      NUM_CAL_POINTS ∧
    ¬ (handleTouchUpdate crosshairs saveOk applyOk s xy pressed).1.calibrationPoints.length =
      NUM_CAL_POINTS := by
  dsimp only [handleTouchUpdate]
  rw [edgeUpdate_eq]
  dsimp only
  rw [if_neg hphase]
  split
  · dsimp only [commitStep]
    rw [if_neg hlen]
    exact ⟨rfl, rfl, hphase, hlen⟩
  · exact ⟨rfl, rfl, hphase, hlen⟩

/-- Helper: over any further input trace from that region, no effect ever
carries a save or apply call. -/
theorem post_region_run (crosshairs : List Pt) (saveOk applyOk : Bool)
    (inputs : List (Pt × Bool)) :
    ∀ s : CalState, ¬ s.curCalPoint < NUM_CAL_POINTS →
      ¬ s.calibrationPoints.length = NUM_CAL_POINTS →
      ∀ eff ∈ (runCal crosshairs saveOk applyOk s inputs).2,
        eff.savedMatrix = none ∧ eff.appliedMatrix = none := by
  induction inputs with
  | nil =>
    intro s h1 h2 eff heff
    simp [runCal] at heff
  | cons u rest ih =>
    intro s h1 h2 eff heff
    dsimp only [runCal] at heff
    rw [List.mem_cons] at heff
    have hstep := post_region_step crosshairs saveOk applyOk s u.1 u.2 h1 h2
    rcases heff with he | he
    · rw [he]
      exact ⟨hstep.1, hstep.2.1⟩
    · exact ih _ hstep.2.2.1 hstep.2.2.2 eff he

/-- **C3**: when the four collected points produce extrapolated bounds that
fail validation, the release completing the fourth point puts the machine
in the error state — error text shown (never the completion text), points
discarded, phase counter at its cap — with no external call in that step,
and no later step ever passes anything to the save or apply backends. -/
theorem C3_invalid_bounds_error (crosshairs : List Pt) (saveOk applyOk : Bool)
    (s : CalState) (xy : Pt) (rest : List (Pt × Bool))
    (hphase : s.curCalPoint = 3)
    (hdown : s.touchIsPressed = true)
    (hinv : boundsInvalid (computeBounds crosshairs
      (s.calibrationPoints ++ [averagePoint (enqueueCapped s.points xy)])) = true) :
    (handleTouchUpdate crosshairs saveOk applyOk s xy false).1.instructionsLabel =
      errorLabel ∧
    (handleTouchUpdate crosshairs saveOk applyOk s xy false).1.instructionsLabel ≠
      completeLabel ∧
    (handleTouchUpdate crosshairs saveOk applyOk s xy false).1.calibrationPoints = [] ∧
    (handleTouchUpdate crosshairs saveOk applyOk s xy false).1.curCalPoint =
      NUM_CAL_POINTS ∧
    (handleTouchUpdate crosshairs saveOk applyOk s xy false).2 = noEffects ∧
    ∀ eff ∈ (runCal crosshairs saveOk applyOk
        (handleTouchUpdate crosshairs saveOk applyOk s xy false).1 rest).2,
      eff.savedMatrix = none ∧ eff.appliedMatrix = none := by
  have hstep : handleTouchUpdate crosshairs saveOk applyOk s xy false =
      collectStep crosshairs { s with touchIsPressed := false } xy true := by
    dsimp only [handleTouchUpdate]
    rw [edgeUpdate_eq, hdown]
    dsimp only
    rw [if_pos (by rw [hphase]; decide)]
    rfl
  have h := collectStep_release crosshairs { s with touchIsPressed := false } xy
  dsimp only at h
  have hfin : s.curCalPoint + 1 = NUM_CAL_POINTS := by rw [hphase]; decide
  have herr := (h.2.2.2.2 hfin).2.2.2.2.2 hinv
  rw [hstep]
  refine ⟨herr.2, ?_, herr.1, ?_, h.1, ?_⟩
  · rw [herr.2]
    decide
  · rw [h.2.1, hfin]
  · intro eff heff
    refine post_region_run crosshairs saveOk applyOk rest _ ?_ ?_ eff heff
    · rw [h.2.1, hfin]
      omega
    · rw [herr.1]
      decide

/-- Witness for C3 at the spec scenario: the release completing the fourth
tap of `scenarioTaps` trips validation, shows the error text with no
effects, and a subsequent tap causes no save or apply call. -/
theorem C3_invalid_bounds_error_witness :
    (handleTouchUpdate cross1024 true true
      (runCal cross1024 true true initState
        (tap (100, 100) ++ tap (3990, 100) ++ tap (3990, 3990) ++ [((100, 3990), true)])).1
      (100, 3990) false).1.instructionsLabel = errorLabel ∧
    (handleTouchUpdate cross1024 true true
      (runCal cross1024 true true initState
        (tap (100, 100) ++ tap (3990, 100) ++ tap (3990, 3990) ++ [((100, 3990), true)])).1
      (100, 3990) false).2 = noEffects := by
  have h := C3_invalid_bounds_error cross1024 true true
    (runCal cross1024 true true initState
      (tap (100, 100) ++ tap (3990, 100) ++ tap (3990, 3990) ++ [((100, 3990), true)])).1
    (100, 3990) [((50, 50), true)] (by decide) (by decide) (by decide)
  exact ⟨h.1, h.2.2.2.2.1⟩

/-- Helper: a press-edge after calibration finished, with four points held,
runs exactly the final-commit branch. -/
theorem handleTouchUpdate_commit (crosshairs : List Pt) (saveOk applyOk : Bool)
    (s : CalState) (xy : Pt)
    (hphase : ¬ s.curCalPoint < NUM_CAL_POINTS)
    (hup : s.touchIsPressed = false) :
    handleTouchUpdate crosshairs saveOk applyOk s xy true =
      commitStep saveOk applyOk { s with touchIsPressed := true } := by
  dsimp only [handleTouchUpdate]
  rw [edgeUpdate_eq, hup]
  dsimp only
  rw [if_neg hphase, if_pos (by decide)]

/-- **C1 counterexample**: at a commit-ready state (the `validTaps` run)
with the save oracle failing, the step records a save call but no apply
call — the `else if` chain suppresses the apply attempt after a save
failure, contradicting the claimed independence. -/
theorem C1_counterexample :
    (handleTouchUpdate cross1024 false true validFinal (120, 120) true).2.savedMatrix.isSome
      = true ∧
    (handleTouchUpdate cross1024 false true validFinal (120, 120) true).2.appliedMatrix
      = none ∧
    (handleTouchUpdate cross1024 false true validFinal (120, 120) true).1.instructionsLabel
      = saveErrorLabel := by decide

/-- **C1 (amended)**: during the final commit the save is always attempted;
an apply failure cannot suppress the save (the save runs first), but a save
failure does suppress the apply attempt (`else if` short-circuit). Every
outcome still yields a distinct status string naming the stage that failed:
the save-error text when save fails, the apply-error text when save
succeeds and apply fails, and the success text otherwise. -/
theorem C1_commit_reporting (crosshairs : List Pt) (saveOk applyOk : Bool)
    (s : CalState) (xy : Pt)
    (hphase : ¬ s.curCalPoint < NUM_CAL_POINTS)
    (hup : s.touchIsPressed = false)
    (hlen : s.calibrationPoints.length = NUM_CAL_POINTS) :
    (handleTouchUpdate crosshairs saveOk applyOk s xy true).2.savedMatrix =
      some (calMatrix s.minXCal s.maxXCal s.minYCal s.maxYCal) ∧
    (saveOk = false →
      (handleTouchUpdate crosshairs saveOk applyOk s xy true).2.appliedMatrix = none ∧
      (handleTouchUpdate crosshairs saveOk applyOk s xy true).1.instructionsLabel =
        saveErrorLabel) ∧
    (saveOk = true →
      (handleTouchUpdate crosshairs saveOk applyOk s xy true).2.appliedMatrix =
        some (calMatrix s.minXCal s.maxXCal s.minYCal s.maxYCal) ∧
      (applyOk = false →
        (handleTouchUpdate crosshairs saveOk applyOk s xy true).1.instructionsLabel =
          applyErrorLabel) ∧
      (applyOk = true →
        (handleTouchUpdate crosshairs saveOk applyOk s xy true).1.instructionsLabel =
          successLabel)) ∧
    saveErrorLabel ≠ applyErrorLabel ∧ saveErrorLabel ≠ successLabel ∧
    applyErrorLabel ≠ successLabel := by
  rw [handleTouchUpdate_commit crosshairs saveOk applyOk s xy hphase hup]
  dsimp only [commitStep]
  rw [if_pos hlen]
  cases saveOk <;> cases applyOk <;>
    refine ⟨rfl, ?_, ?_, by decide, by decide, by decide⟩ <;>
    intro h <;>
    first
      | exact Bool.noConfusion h
      | exact ⟨rfl, rfl⟩
      | exact ⟨rfl, fun _ => rfl, fun h2 => Bool.noConfusion h2⟩
      | exact ⟨rfl, fun h2 => Bool.noConfusion h2, fun _ => rfl⟩

/-- Witness for C1 at the commit-ready `validFinal` state with a failing
save oracle: the apply call is suppressed and the save-error text shown. -/
theorem C1_commit_reporting_witness :
    (handleTouchUpdate cross1024 false true validFinal (5, 5) true).2.appliedMatrix
      = none ∧
    (handleTouchUpdate cross1024 false true validFinal (5, 5) true).1.instructionsLabel
      = saveErrorLabel :=
  (C1_commit_reporting cross1024 false true validFinal (5, 5)
    (by decide) (by decide) (by decide)).2.1 rfl

/-- **C6**: for valid per-axis bounds, the matrix handed to the persistence
store (and, when the save succeeds, to the display-server backend) is the
row-major list `[a, 0, c, 0, e, f, 0, 0, 1]` with
`a = range/(maxX-minX)`, `c = minX/(minX-maxX)`, `e = range/(maxY-minY)`,
`f = minY/(minY-maxY)`: zero rotation terms and a fixed bottom row. -/
theorem C6_matrix_coefficients (crosshairs : List Pt) (saveOk applyOk : Bool)
    (s : CalState) (xy : Pt)
    (hphase : ¬ s.curCalPoint < NUM_CAL_POINTS)
    (hup : s.touchIsPressed = false)
    (hlen : s.calibrationPoints.length = NUM_CAL_POINTS)
    (_hx : s.minXCal < s.maxXCal) (_hy : s.minYCal < s.maxYCal) :
    (handleTouchUpdate crosshairs saveOk applyOk s xy true).2.savedMatrix =
      some [(RAW_TOUCHSCREEN_RANGE : ℚ) / ((s.maxXCal : ℚ) - (s.minXCal : ℚ)), 0,
            (s.minXCal : ℚ) / ((s.minXCal : ℚ) - (s.maxXCal : ℚ)), 0,
            (RAW_TOUCHSCREEN_RANGE : ℚ) / ((s.maxYCal : ℚ) - (s.minYCal : ℚ)),
            (s.minYCal : ℚ) / ((s.minYCal : ℚ) - (s.maxYCal : ℚ)), 0, 0, 1] ∧
    (saveOk = true →
      (handleTouchUpdate crosshairs saveOk applyOk s xy true).2.appliedMatrix =
        some [(RAW_TOUCHSCREEN_RANGE : ℚ) / ((s.maxXCal : ℚ) - (s.minXCal : ℚ)), 0,
              (s.minXCal : ℚ) / ((s.minXCal : ℚ) - (s.maxXCal : ℚ)), 0,
              (RAW_TOUCHSCREEN_RANGE : ℚ) / ((s.maxYCal : ℚ) - (s.minYCal : ℚ)),
              (s.minYCal : ℚ) / ((s.minYCal : ℚ) - (s.maxYCal : ℚ)), 0, 0, 1]) := by
  have hm : calMatrix s.minXCal s.maxXCal s.minYCal s.maxYCal =
      [(RAW_TOUCHSCREEN_RANGE : ℚ) / ((s.maxXCal : ℚ) - (s.minXCal : ℚ)), 0,
       (s.minXCal : ℚ) / ((s.minXCal : ℚ) - (s.maxXCal : ℚ)), 0,
       (RAW_TOUCHSCREEN_RANGE : ℚ) / ((s.maxYCal : ℚ) - (s.minYCal : ℚ)),
       (s.minYCal : ℚ) / ((s.minYCal : ℚ) - (s.maxYCal : ℚ)), 0, 0, 1] := by
    simp only [calMatrix, qdiv_eq, qsub_eq]
  rw [handleTouchUpdate_commit crosshairs saveOk applyOk s xy hphase hup]
  dsimp only [commitStep]
  rw [if_pos hlen]
  constructor
  · cases saveOk <;> cases applyOk <;> simp [hm]
  · intro hs
    subst hs
    cases applyOk <;> simp [hm]

/-- Witness for C6 at the `validFinal` bounds `(100, 1124, 100, 884)`: the
saved matrix evaluates to
`[4095/1024, 0, -25/256, 0, 4095/784, -25/196, 0, 0, 1]`. -/
theorem C6_matrix_coefficients_witness :
    (handleTouchUpdate cross1024 true true validFinal (5, 5) true).2.savedMatrix =
      some [mkRat 4095 1024, 0, mkRat (-25) 256, 0,
            mkRat 4095 784, mkRat (-25) 196, 0, 0, 1] := by
  have h := (C6_matrix_coefficients cross1024 true true validFinal (5, 5)
    (by decide) (by decide) (by decide) (by decide) (by decide)).1
  rw [h]
  have e1 : validFinal.minXCal = 100 := by decide
  have e2 : validFinal.maxXCal = 1124 := by decide
  have e3 : validFinal.minYCal = 100 := by decide
  have e4 : validFinal.maxYCal = 884 := by decide
  rw [e1, e2, e3, e4]
  norm_num [Rat.mkRat_eq_div, RAW_TOUCHSCREEN_RANGE]

end Chumby8TSCal
